import Mathlib

/-!
Verification of the Termchat client core against its specification.

The definitions below are a shallow embedding of the Rust sources:

* `src/colors.rs` — `UserColors` and `UserColors::get_color` (the user
  color assignor).  The Rust `HashMap<String, Color>` is modelled as an
  association list in which a key is inserted only when absent, so the
  entry count of the list equals the map's size and lookup agrees with
  the map's lookup.
* `src/app_state.rs` lines 90-128 — the full nine-variant `ServerMessage`
  enum (the copy in `src/message.rs` is truncated to a single variant;
  the nine-variant enum is the one `src/websocket.rs` pattern-matches
  on).  Its serde internally-tagged (`#[serde(tag = "type")]`) derived
  decoder is modelled as `decodeServerMessage` over a JSON value type.
* `src/main.rs` — the network thread (`spawn_network_thread`), the
  websocket reader task inside `connect_ws`, and the `on_connect` UI
  callback.
* `src/websocket.rs` — the prototype `WebSocketManager::connect` read
  loop, modelled by `wsHandleServerMessage` / `wsReaderStep`.

Rust's `String::to_lowercase` and `str::eq_ignore_ascii_case` are
modelled with `asciiLower` (ASCII case folding), and `trim().is_empty()`
with `isBlank`; every case comparison in the program is against the
ASCII literal `"server"`, where Unicode and ASCII folding coincide.
-/

namespace Termchat

/-- An RGB color, as produced by `Color::from_rgb_u8` in `src/colors.rs`. -/
structure Color where
  r : Nat
  g : Nat
  b : Nat
deriving DecidableEq

/-- The ordered nine-color palette built in `UserColors::new`
(`src/colors.rs` lines 12-22). -/
def paletteColors : List Color :=
  [⟨255, 0, 0⟩, ⟨0, 255, 0⟩, ⟨255, 255, 0⟩, ⟨255, 0, 255⟩, ⟨0, 255, 255⟩,
   ⟨255, 100, 100⟩, ⟨255, 255, 100⟩, ⟨255, 100, 255⟩, ⟨100, 255, 255⟩]

/-- The fixed sentinel color returned for the reserved name
(`Color::from_rgb_u8(135, 206, 235)`, `src/colors.rs` line 33). -/
def serverColor : Color := ⟨135, 206, 235⟩

/-- ASCII lowercasing of one character, the fragment of Rust's case
folding relevant to this program (every case comparison in the source is
against the ASCII literal `"server"`). -/
def lowerChar (c : Char) : Char :=
  if 'A' ≤ c ∧ c ≤ 'Z' then Char.ofNat (c.toNat + 32) else c

/-- Model of `String::to_lowercase` / `str::eq_ignore_ascii_case`
normalization (ASCII fragment). -/
def asciiLower (s : String) : String := ⟨s.data.map lowerChar⟩

/-- Model of Rust's `s.trim().is_empty()`: every character is
whitespace. -/
def isBlank (s : String) : Bool := s.data.all Char.isWhitespace

/-- State of the user color assignor (`struct UserColors`,
`src/colors.rs` lines 4-8).  `user_colors` models the `HashMap` as an
association list; keys are inserted only when absent. -/
structure UserColors where
  colors : List Color
  user_colors : List (String × Color)
  next_color_index : Nat
deriving DecidableEq

/-- `UserColors::new` (`src/colors.rs` lines 11-29). -/
def UserColors.new : UserColors :=
  { colors := paletteColors, user_colors := [], next_color_index := 0 }

/-- Lookup in the association list modelling `HashMap::get`. -/
def findColor : List (String × Color) → String → Option Color
  | [], _ => none
  | (k, c) :: rest, u => if k = u then some c else findColor rest u

/-- `UserColors::get_color` (`src/colors.rs` lines 31-45).  Returns the
color together with the updated state.  The Rust indexing
`self.colors[self.next_color_index % self.colors.len()]` cannot go out
of bounds when the palette is nonempty; it is modelled with `List.getD`
(the default is never reached from `UserColors.new`). -/
def UserColors.get_color (s : UserColors) (username : String) : Color × UserColors :=
  if asciiLower username = "server" then
    (serverColor, s)
  else
    match findColor s.user_colors username with
    | some c => (c, s)
    | none =>
      let c := s.colors.getD (s.next_color_index % s.colors.length) serverColor
      (c, { s with
              user_colors := (username, c) :: s.user_colors,
              next_color_index := s.next_color_index + 1 })

/-- Run a sequence of `get_color` calls, collecting the returned colors
and the final state. -/
def runColors : UserColors → List String → List Color × UserColors
  | s, [] => ([], s)
  | s, u :: us =>
    let p := UserColors.get_color s u
    let q := runColors p.2 us
    (p.1 :: q.1, q.2)

/-- JSON values, as parsed by `serde_json` (`serde_json::Value`). -/
inductive Json where
  | str : String → Json
  | num : Int → Json
  | jbool : Bool → Json
  | null : Json
  | arr : List Json → Json
  | obj : List (String × Json) → Json

/-- Lookup of an object field (`serde_json::Value::get`). -/
def lookupField : List (String × Json) → String → Option Json
  | [], _ => none
  | (k, v) :: rest, key => if k = key then some v else lookupField rest key

/-- `parsed.get(key)` — `none` when the value is not an object or the
field is absent. -/
def Json.getField : Json → String → Option Json
  | .obj fields, key => lookupField fields key
  | _, _ => none

/-- `Value::as_str` — `some` exactly on JSON strings. -/
def Json.asStr : Json → Option String
  | .str s => some s
  | _ => none

/-- `parsed.get(key).and_then(|v| v.as_str())`. -/
def Json.getStr (j : Json) (key : String) : Option String :=
  (j.getField key).bind Json.asStr

/-- The nine-variant `ServerMessage` enum (`src/app_state.rs` lines
90-128, required by the match in `src/websocket.rs` lines 54-93). -/
inductive ServerMessage where
  | join (username : String)
  | leave (username : String)
  | message (username content : String)
  | error (message : String)
  | authFailed (message : String)
  | colorShift (color : String)
  | backgroundShift (color : String)
  | chatClear
  | kicked (message : String)
deriving DecidableEq

/-- The serde-derived decoder of `ServerMessage`: internally tagged with
discriminant field `type`, variant names renamed per the
`#[serde(rename = ...)]` attributes, each payload field a required JSON
string.  `none` models `serde_json::from_str` returning `Err`. -/
def decodeServerMessage (j : Json) : Option ServerMessage :=
  match j.getStr "type" with
  | some "join" => (j.getStr "username").map ServerMessage.join
  | some "leave" => (j.getStr "username").map ServerMessage.leave
  | some "message" =>
    match j.getStr "username", j.getStr "content" with
    | some u, some c => some (ServerMessage.message u c)
    | _, _ => none
  | some "error" => (j.getStr "message").map ServerMessage.error
  | some "auth_failed" => (j.getStr "message").map ServerMessage.authFailed
  | some "colourshift" => (j.getStr "color").map ServerMessage.colorShift
  | some "bgshift" => (j.getStr "color").map ServerMessage.backgroundShift
  | some "chatclear" => some ServerMessage.chatClear
  | some "kicked" => (j.getStr "message").map ServerMessage.kicked
  | _ => none

/-- `enum UiEvent` (`src/main.rs` lines 28-40); `uiError` is
`UiEvent::Error`. -/
inductive UiEvent where
  | connected
  | disconnected
  | received (text : String)
  | uiError (message : String)
  | themeChange (color : String)
  | backgroundChange (color : String)
  | clearChat
  | kick (message : String)
  | authFailed (message : String)
  | generalCount (n : Int)
deriving DecidableEq

/-- The events sent by the reader task of `connect_ws` for one inbound
text frame (`src/main.rs` lines 171-230).  `parsed` is the result of
`serde_json::from_str::<Value>` on the raw text `txt` (`none` when
parsing fails). -/
def frameEvents (parsed : Option Json) (txt : String) : List UiEvent :=
  match parsed with
  | none => [.received txt]
  | some p =>
    match p.getStr "type" with
    | none => [.received txt]
    | some t =>
      if t = "message" then
        let username := (p.getStr "username").getD "Unknown"
        let content := (p.getStr "content").getD ""
        let display :=
          if asciiLower username = "server" then "Server: " ++ content
          else "[" ++ username ++ "] " ++ content
        [.received display]
      else if t = "join" then
        match p.getStr "username" with
        | some u => [.received ("[System] " ++ u ++ " joined")]
        | none => []
      else if t = "leave" then
        match p.getStr "username" with
        | some u => [.received ("[System] " ++ u ++ " left")]
        | none => []
      else if t = "colourshift" then
        match p.getStr "color" with
        | some c => [.themeChange c]
        | none => []
      else if t = "bgshift" then
        match p.getStr "color" with
        | some c => [.backgroundChange c]
        | none => []
      else if t = "chatclear" then [.clearChat]
      else if t = "kicked" then
        [.kick ((p.getStr "message").getD "You have been kicked")]
      else if t = "error" then
        [.uiError ((p.getStr "message").getD "Unknown error")]
      else if t = "auth_failed" then
        [.authFailed ((p.getStr "message").getD "Authentication failed")]
      else [.received txt]

/-- One frame as seen by the reader task of `connect_ws`
(`src/main.rs` lines 169-242). -/
inductive WsFrame where
  | text (parsed : Option Json) (raw : String)
  | close
  | transportErr (e : String)
  | other

/-- One step of the reader loop in `connect_ws` (`src/main.rs` lines
169-242): the events sent and whether the loop continues (`false`
models `break`).  The `Text` arm never breaks in the source. -/
def readerStep (f : WsFrame) : List UiEvent × Bool :=
  match f with
  | .text parsed raw => (frameEvents parsed raw, true)
  | .close => ([.disconnected], false)
  | .transportErr e => ([.uiError ("WS receive error: " ++ e)], false)
  | .other => ([], true)

/-- `enum AppEvent` (`src/app_state.rs` lines 8-33). -/
inductive AppEvent where
  | splashComplete
  | serverStatusUpdate (ok : Bool)
  | generalCountUpdate (n : Int)
  | connectRequested (username chatname password : String)
  | connected
  | disconnected
  | messageReceived (username content : String) (is_server : Bool)
  | sendMessage (content : String)
  | clearMessages
  | userJoined (username : String)
  | userLeft (username : String)
  | themeColorChange (color : String)
  | backgroundColorChange (color : String)
  | kicked (message : String)
  | quit
deriving DecidableEq

/-- Dispatch of one decoded `ServerMessage` in the prototype
`WebSocketManager::connect` read loop (`src/websocket.rs` lines 54-93).
`selfUsername` is the connecting user's name.  For `Error` and
`AuthFailed` the payload message goes to `eprintln!` only; the sole
event sent is `Disconnected`. -/
def wsHandleServerMessage (selfUsername : String) : ServerMessage → List AppEvent
  | .join u => if u = selfUsername then [.connected] else [.userJoined u]
  | .leave u => [.userLeft u]
  | .message u c => [.messageReceived u c (asciiLower u = "server")]
  | .error _m => [.disconnected]
  | .authFailed _m => [.disconnected]
  | .colorShift c => [.themeColorChange c]
  | .backgroundShift c => [.backgroundColorChange c]
  | .chatClear => [.clearMessages]
  | .kicked m => [.kicked m]

/-- One frame as seen by the `WebSocketManager::connect` loop
(`src/websocket.rs` lines 50-107); `parsed` is the result of the typed
`serde_json::from_str::<ServerMessage>` decode. -/
inductive WsTypedFrame where
  | text (parsed : Option ServerMessage)
  | close
  | transportErr (e : String)
  | other

/-- One step of the `WebSocketManager::connect` read loop
(`src/websocket.rs` lines 50-107): a frame the typed decoder rejects
produces no event at all, and the loop continues on every text frame. -/
def wsReaderStep (selfUsername : String) (f : WsTypedFrame) : List AppEvent × Bool :=
  match f with
  | .text (some m) => (wsHandleServerMessage selfUsername m, true)
  | .text none => ([], true)
  | .close => ([.disconnected], false)
  | .transportErr _e => ([.disconnected], false)
  | .other => ([], true)

/-- `enum NetCommand` (`src/main.rs` lines 16-26). -/
inductive NetCommand where
  | connect (username chat password : String)
  | sendText (text : String)
  | disconnect
  | requestGeneralCount
deriving DecidableEq

/-- The mutable state of the network thread (`src/main.rs` lines 48-51):
`hasOutgoing` models `outgoing_tx_opt.is_some()`. -/
structure NetState where
  connectionActive : Bool
  hasOutgoing : Bool
deriving DecidableEq

/-- Result of the `connect_ws` call performed inside the `Connect` arm
(`src/main.rs` lines 74-85). -/
inductive ConnectOutcome where
  | ok
  | failed (e : String)

/-- One iteration of the network thread loop (`src/main.rs` lines
53-118) on a received command.  Returns the new state, the `UiEvent`s
sent on the bridge, and `some (username, chat, password)` exactly when a
websocket transport connection attempt (`connect_ws`) is made. -/
def netStep (s : NetState) (cmd : NetCommand) (outcome : ConnectOutcome) :
    NetState × List UiEvent × Option (String × String × String) :=
  match cmd with
  | .requestGeneralCount => (s, [], none)
  | .connect u c p =>
    if s.connectionActive then
      (s, [.uiError "Already connected"], none)
    else
      match outcome with
      | .ok => ({ connectionActive := true, hasOutgoing := true }, [], some (u, c, p))
      | .failed e => (s, [.uiError ("Connect failed: " ++ e)], some (u, c, p))
  | .sendText _t =>
    if s.hasOutgoing then (s, [], none)
    else (s, [.uiError "Not connected"], none)
  | .disconnect =>
    let s1 : NetState := { connectionActive := false, hasOutgoing := false }
    if s.connectionActive then (s1, [.disconnected], none) else (s1, [], none)

/-- The `on_connect` UI callback (`src/main.rs` lines 294-301): blank
fields are defaulted, everything else is forwarded unchanged as a
`NetCommand::Connect`. -/
def on_connect (username chat password : String) : NetCommand :=
  .connect
    (if isBlank username then "guest" else username)
    (if isBlank chat then "general" else chat)
    (if isBlank password then "default" else password)

/-- A text frame the reader's dispatch does not recognize: the raw text
is not JSON, or the parsed value has no string `type` field, or the
discriminant is none of the nine handled by the match in `src/main.rs`
lines 175-224. -/
def unrecognizedFrame : Option Json → Bool
  | none => true
  | some p =>
    match p.getStr "type" with
    | none => true
    | some t =>
      ! (t == "message" || t == "join" || t == "leave" || t == "colourshift" ||
         t == "bgshift" || t == "chatclear" || t == "kicked" || t == "error" ||
         t == "auth_failed")

/-- Inductive invariant of the color assignor state: the palette is the
fixed nine-color list, the table has exactly `next_color_index` entries,
and every stored color is a palette color. -/
def InvColors (s : UserColors) : Prop :=
  s.colors = paletteColors ∧
  s.user_colors.length = s.next_color_index ∧
  ∀ p ∈ s.user_colors, p.2 ∈ paletteColors

end Termchat

namespace Termchat

/-! ### Helper lemmas about the user color assignor -/

lemma paletteColors_length : paletteColors.length = 9 := rfl

lemma serverColor_not_mem_palette : serverColor ∉ paletteColors := by decide

lemma paletteColors_getD_mod_mem (n : Nat) :
    paletteColors.getD (n % paletteColors.length) serverColor ∈ paletteColors := by
  have h : n % paletteColors.length < paletteColors.length :=
    Nat.mod_lt n (by rw [paletteColors_length]; omega)
  rw [List.getD_eq_getElem _ _ h]
  exact List.getElem_mem h

lemma get_color_of_server (s : UserColors) (u : String) (h : asciiLower u = "server") :
    UserColors.get_color s u = (serverColor, s) := by
  unfold UserColors.get_color
  rw [if_pos h]

lemma get_color_of_found (s : UserColors) (u : String) (c : Color)
    (hs : asciiLower u ≠ "server") (hf : findColor s.user_colors u = some c) :
    UserColors.get_color s u = (c, s) := by
  unfold UserColors.get_color
  rw [if_neg hs, hf]

lemma get_color_of_fresh (s : UserColors) (u : String)
    (hs : asciiLower u ≠ "server") (hf : findColor s.user_colors u = none) :
    UserColors.get_color s u =
      (s.colors.getD (s.next_color_index % s.colors.length) serverColor,
       { s with
           user_colors :=
             (u, s.colors.getD (s.next_color_index % s.colors.length) serverColor)
               :: s.user_colors,
           next_color_index := s.next_color_index + 1 }) := by
  unfold UserColors.get_color
  rw [if_neg hs, hf]

lemma findColor_head (u : String) (c : Color) (l : List (String × Color)) :
    findColor ((u, c) :: l) u = some c := by
  simp [findColor]

lemma findColor_mem :
    ∀ (l : List (String × Color)) (u : String) (c : Color),
      findColor l u = some c → (u, c) ∈ l := by
  intro l
  induction l with
  | nil => intro u c h; cases h
  | cons p rest ih =>
    intro u c h
    obtain ⟨k, cv⟩ := p
    by_cases hk : k = u
    · subst hk
      rw [findColor_head] at h
      cases h
      exact List.mem_cons_self _ _
    · rw [show findColor ((k, cv) :: rest) u = findColor rest u by
        simp [findColor, hk]] at h
      exact List.mem_cons_of_mem _ (ih u c h)

lemma findColor_get_color_mono (s : UserColors) (v u : String) (c : Color)
    (hf : findColor s.user_colors u = some c) :
    findColor ((UserColors.get_color s v).2).user_colors u = some c := by
  by_cases hv : asciiLower v = "server"
  · rw [get_color_of_server s v hv]
    exact hf
  · cases hvf : findColor s.user_colors v with
    | some cv =>
      rw [get_color_of_found s v cv hv hvf]
      exact hf
    | none =>
      rw [get_color_of_fresh s v hv hvf]
      have hne : v ≠ u := by
        intro hvu
        rw [hvu, hf] at hvf
        exact Option.noConfusion hvf
      simpa [findColor, hne] using hf

lemma findColor_runColors_mono
    (vs : List String) (s : UserColors) (u : String) (c : Color)
    (hf : findColor s.user_colors u = some c) :
    findColor ((runColors s vs).2).user_colors u = some c := by
  induction vs generalizing s with
  | nil => exact hf
  | cons v vs ih =>
    show findColor ((runColors (UserColors.get_color s v).2 vs).2).user_colors u = some c
    exact ih _ (findColor_get_color_mono s v u c hf)

end Termchat

namespace Termchat

lemma get_color_stable (s : UserColors) (u : String) (vs : List String)
    (hs : asciiLower u ≠ "server") :
    (UserColors.get_color ((runColors (UserColors.get_color s u).2 vs).2) u).1 =
      (UserColors.get_color s u).1 := by
  cases hf : findColor s.user_colors u with
  | some c =>
    have h1 : UserColors.get_color s u = (c, s) := get_color_of_found s u c hs hf
    rw [h1]
    have h2 : findColor ((runColors s vs).2).user_colors u = some c :=
      findColor_runColors_mono vs s u c hf
    rw [get_color_of_found _ u c hs h2]
  | none =>
    have h1 := get_color_of_fresh s u hs hf
    have hhead : findColor ((UserColors.get_color s u).2).user_colors u =
        some (s.colors.getD (s.next_color_index % s.colors.length) serverColor) := by
      rw [h1]
      exact findColor_head _ _ _
    have h2 := findColor_runColors_mono vs _ u _ hhead
    rw [get_color_of_found _ u _ hs h2, h1]

lemma runColors_cons (s : UserColors) (u : String) (us : List String) :
    runColors s (u :: us) =
      ((UserColors.get_color s u).1 :: (runColors (UserColors.get_color s u).2 us).1,
       (runColors (UserColors.get_color s u).2 us).2) := rfl

lemma runColors_cycle :
    ∀ (us : List String) (s : UserColors),
      s.colors = paletteColors →
      us.Nodup →
      (∀ u ∈ us, asciiLower u ≠ "server") →
      (∀ u ∈ us, findColor s.user_colors u = none) →
      ∀ i, i < us.length →
        (runColors s us).1.getD i serverColor =
          paletteColors.getD ((s.next_color_index + i) % 9) serverColor := by
  intro us
  induction us with
  | nil => intro s _ _ _ _ i hi; cases hi
  | cons u us ih =>
    intro s hc hnd hns habs i hi
    have hsu : asciiLower u ≠ "server" := hns u (List.mem_cons_self u us)
    have hau : findColor s.user_colors u = none := habs u (List.mem_cons_self u us)
    have hstep := get_color_of_fresh s u hsu hau
    have hcl : s.colors.length = 9 := by rw [hc]; rfl
    rw [runColors_cons, hstep]
    obtain ⟨hnotmem, hnd'⟩ := List.nodup_cons.mp hnd
    cases i with
    | zero =>
      show s.colors.getD (s.next_color_index % s.colors.length) serverColor = _
      rw [hc, paletteColors_length, Nat.add_zero]
    | succ j =>
      show (runColors _ us).1.getD j serverColor = _
      have hih := ih
        { s with
            user_colors :=
              (u, s.colors.getD (s.next_color_index % s.colors.length) serverColor)
                :: s.user_colors,
            next_color_index := s.next_color_index + 1 }
        hc hnd'
        (fun v hv => hns v (List.mem_cons_of_mem u hv))
        (by
          intro v hv
          have hvu : u ≠ v := by
            intro h
            exact hnotmem (h ▸ hv)
          simpa [findColor, hvu] using habs v (List.mem_cons_of_mem u hv))
        j (by simpa using Nat.lt_of_succ_lt_succ hi)
      rw [hih]
      have harith : s.next_color_index + 1 + j = s.next_color_index + (j + 1) := by omega
      rw [harith]

end Termchat

namespace Termchat

lemma invColors_new : InvColors UserColors.new := by
  refine ⟨rfl, rfl, ?_⟩
  intro p hp
  cases hp

lemma invColors_get_color (s : UserColors) (u : String) (h : InvColors s) :
    InvColors (UserColors.get_color s u).2 := by
  obtain ⟨hc, hl, hm⟩ := h
  by_cases hs : asciiLower u = "server"
  · rw [get_color_of_server s u hs]
    exact ⟨hc, hl, hm⟩
  · cases hf : findColor s.user_colors u with
    | some c =>
      rw [get_color_of_found s u c hs hf]
      exact ⟨hc, hl, hm⟩
    | none =>
      rw [get_color_of_fresh s u hs hf]
      refine ⟨hc, by simp [hl], ?_⟩
      intro p hp
      rcases List.mem_cons.mp hp with h1 | h2
      · rw [h1]
        show s.colors.getD (s.next_color_index % s.colors.length) serverColor ∈ paletteColors
        rw [hc]
        exact paletteColors_getD_mod_mem _
      · exact hm p h2

lemma invColors_run :
    ∀ (us : List String) (s : UserColors), InvColors s → InvColors (runColors s us).2 := by
  intro us
  induction us with
  | nil => intro s h; exact h
  | cons u us ih =>
    intro s h
    rw [runColors_cons]
    exact ih _ (invColors_get_color s u h)

lemma get_color_mem_palette (s : UserColors) (u : String)
    (h : InvColors s) (hs : asciiLower u ≠ "server") :
    (UserColors.get_color s u).1 ∈ paletteColors := by
  obtain ⟨hc, _hl, hm⟩ := h
  cases hf : findColor s.user_colors u with
  | some c =>
    rw [get_color_of_found s u c hs hf]
    exact hm (u, c) (findColor_mem s.user_colors u c hf)
  | none =>
    rw [get_color_of_fresh s u hs hf]
    show s.colors.getD (s.next_color_index % s.colors.length) serverColor ∈ paletteColors
    rw [hc]
    exact paletteColors_getD_mod_mem _

end Termchat

namespace Termchat

/-- C7: for every username whose normalized form is not the reserved
name, `get_color` is deterministic in first-sighting order: a repeated
call (with arbitrary calls in between) returns the same color as the
first call, and starting from `UserColors::new`, N pairwise-distinct
usernames receive `paletteColors[0], paletteColors[1], ...` cycling with
period 9, the palette length. -/
theorem color_for_deterministic_cycling :
    (∀ (s : UserColors) (u : String) (vs : List String),
      asciiLower u ≠ "server" →
        (UserColors.get_color ((runColors (UserColors.get_color s u).2 vs).2) u).1 =
          (UserColors.get_color s u).1) ∧
    (∀ (us : List String),
      us.Nodup →
      (∀ u ∈ us, asciiLower u ≠ "server") →
      ∀ i, i < us.length →
        (runColors UserColors.new us).1.getD i serverColor =
          paletteColors.getD (i % 9) serverColor) := by
  constructor
  · intro s u vs hs
    exact get_color_stable s u vs hs
  · intro us hnd hns i hi
    have h := runColors_cycle us UserColors.new rfl hnd hns
      (fun u _ => rfl) i hi
    simpa [UserColors.new] using h

/-- Witness for C7 at concrete inputs: the repeated call for `"alice"`
(with a `"bob"` call in between) returns the first color, and the tenth
of ten distinct usernames wraps around to `paletteColors[0]`. -/
theorem color_for_deterministic_cycling_witness :
    ((UserColors.get_color
        ((runColors (UserColors.get_color UserColors.new "alice").2 ["bob"]).2)
        "alice").1 =
      (UserColors.get_color UserColors.new "alice").1) ∧
    (runColors UserColors.new
        ["a", "b", "c", "d", "e", "f", "g", "h", "i", "j"]).1.getD 9 serverColor =
      paletteColors.getD (9 % 9) serverColor :=
  ⟨color_for_deterministic_cycling.1 UserColors.new "alice" ["bob"] (by decide),
   color_for_deterministic_cycling.2 ["a", "b", "c", "d", "e", "f", "g", "h", "i", "j"]
     (by decide) (by decide) 9 (by decide)⟩

/-- C8: for every username that case-insensitively equals `"server"`,
`get_color` returns the fixed sentinel color and leaves the whole state
(color table and next palette index) unchanged. -/
theorem server_name_sentinel_no_state_change :
    ∀ (s : UserColors) (u : String), asciiLower u = "server" →
      UserColors.get_color s u = (serverColor, s) :=
  fun s u h => get_color_of_server s u h

/-- Witness for C8 at the three spec examples `"Server"`, `"server"`,
`"SERVER"` from the fresh state. -/
theorem server_name_sentinel_no_state_change_witness :
    UserColors.get_color UserColors.new "Server" = (serverColor, UserColors.new) ∧
    UserColors.get_color UserColors.new "server" = (serverColor, UserColors.new) ∧
    UserColors.get_color UserColors.new "SERVER" = (serverColor, UserColors.new) :=
  ⟨server_name_sentinel_no_state_change UserColors.new "Server" (by decide),
   server_name_sentinel_no_state_change UserColors.new "server" (by decide),
   server_name_sentinel_no_state_change UserColors.new "SERVER" (by decide)⟩

end Termchat

namespace Termchat

/-- Counterexample to C9: the color table is keyed by the raw username,
not a normalized one.  From the fresh state, `"Alice"` is assigned the
first palette color and `"alice"` — the same name up to letter case —
is then assigned the second, different palette color. -/
theorem case_variant_different_colors_cex :
    (runColors UserColors.new ["Alice", "alice"]).1 =
      [⟨255, 0, 0⟩, ⟨0, 255, 0⟩] ∧
    (⟨255, 0, 0⟩ : Color) ≠ ⟨0, 255, 0⟩ ∧
    (runColors UserColors.new ["Alice", "alice"]).2.user_colors =
      [("alice", ⟨0, 255, 0⟩), ("Alice", ⟨255, 0, 0⟩)] := by
  refine ⟨?_, by decide, ?_⟩ <;> decide

/-- C9 amended: `get_color` looks the username up by exact string
equality (only the reserved-name check is case-insensitive), so any two
distinct username strings — including two differing only in letter case
— each consume their own palette slot: from the fresh state they receive
the first and the second palette color, which differ. -/
theorem color_table_keyed_by_raw_username :
    ∀ (u v : String), u ≠ v →
      asciiLower u ≠ "server" → asciiLower v ≠ "server" →
      (runColors UserColors.new [u, v]).1 = [⟨255, 0, 0⟩, ⟨0, 255, 0⟩] ∧
      (⟨255, 0, 0⟩ : Color) ≠ ⟨0, 255, 0⟩ := by
  intro u v huv hu hv
  refine ⟨?_, by decide⟩
  have h1 : UserColors.get_color UserColors.new u =
      (⟨255, 0, 0⟩, ⟨paletteColors, [(u, ⟨255, 0, 0⟩)], 1⟩) := by
    rw [get_color_of_fresh UserColors.new u hu rfl]
    rfl
  have hfv : findColor [(u, (⟨255, 0, 0⟩ : Color))] v = none := by
    simp [findColor, huv]
  have h2 : UserColors.get_color ⟨paletteColors, [(u, ⟨255, 0, 0⟩)], 1⟩ v =
      (⟨0, 255, 0⟩,
       ⟨paletteColors, [(v, ⟨0, 255, 0⟩), (u, ⟨255, 0, 0⟩)], 2⟩) := by
    rw [get_color_of_fresh _ v hv hfv]
    rfl
  rw [runColors_cons, h1, runColors_cons, h2]
  rfl

/-- Witness for the amended C9 at the concrete case variants `"Alice"`
and `"alice"`. -/
theorem color_table_keyed_by_raw_username_witness :
    (runColors UserColors.new ["Alice", "alice"]).1 =
      [⟨255, 0, 0⟩, ⟨0, 255, 0⟩] ∧
    (⟨255, 0, 0⟩ : Color) ≠ ⟨0, 255, 0⟩ :=
  color_table_keyed_by_raw_username "Alice" "alice"
    (by decide) (by decide) (by decide)

/-- C10: after any sequence of `get_color` calls from `UserColors::new`,
the table has exactly `next_color_index` entries, every stored color is
one of the nine palette colors and never the sentinel, and `get_color`
never returns the sentinel for a username whose lowercase form is not
`"server"`. -/
theorem user_colors_invariant :
    ∀ us : List String,
      ((runColors UserColors.new us).2.user_colors.length =
        (runColors UserColors.new us).2.next_color_index) ∧
      (∀ p ∈ (runColors UserColors.new us).2.user_colors,
        p.2 ∈ paletteColors ∧ p.2 ≠ serverColor) ∧
      (∀ u, asciiLower u ≠ "server" →
        (UserColors.get_color (runColors UserColors.new us).2 u).1 ≠ serverColor) := by
  intro us
  obtain ⟨hc, hl, hm⟩ := invColors_run us UserColors.new invColors_new
  refine ⟨hl, ?_, ?_⟩
  · intro p hp
    refine ⟨hm p hp, ?_⟩
    intro hps
    exact serverColor_not_mem_palette (hps ▸ hm p hp)
  · intro u hu hsc
    have hmem := get_color_mem_palette _ u ⟨hc, hl, hm⟩ hu
    rw [hsc] at hmem
    exact serverColor_not_mem_palette hmem

/-- Witness for C10 with the call sequence `["alice"]`, the stored entry
`("alice", red)` and the further username `"bob"`. -/
theorem user_colors_invariant_witness :
    ((runColors UserColors.new ["alice"]).2.user_colors.length =
      (runColors UserColors.new ["alice"]).2.next_color_index) ∧
    ((⟨255, 0, 0⟩ : Color) ∈ paletteColors ∧ (⟨255, 0, 0⟩ : Color) ≠ serverColor) ∧
    (UserColors.get_color (runColors UserColors.new ["alice"]).2 "bob").1 ≠ serverColor :=
  ⟨(user_colors_invariant ["alice"]).1,
   (user_colors_invariant ["alice"]).2.1 ("alice", ⟨255, 0, 0⟩) (by decide),
   (user_colors_invariant ["alice"]).2.2 "bob" (by decide)⟩

/-- C1: the serde decoder applied to each of the nine literal inbound
frame shapes of the spec succeeds and yields the corresponding
`ServerMessage` variant with every field populated verbatim. -/
theorem decode_inbound_examples :
    ∀ (U S : String),
      decodeServerMessage (Json.obj [("type", Json.str "join"), ("username", Json.str U)]) =
        some (ServerMessage.join U) ∧
      decodeServerMessage (Json.obj [("type", Json.str "leave"), ("username", Json.str U)]) =
        some (ServerMessage.leave U) ∧
      decodeServerMessage (Json.obj
          [("type", Json.str "message"), ("username", Json.str U), ("content", Json.str S)]) =
        some (ServerMessage.message U S) ∧
      decodeServerMessage (Json.obj [("type", Json.str "error"), ("message", Json.str S)]) =
        some (ServerMessage.error S) ∧
      decodeServerMessage (Json.obj [("type", Json.str "auth_failed"), ("message", Json.str S)]) =
        some (ServerMessage.authFailed S) ∧
      decodeServerMessage (Json.obj [("type", Json.str "colourshift"), ("color", Json.str S)]) =
        some (ServerMessage.colorShift S) ∧
      decodeServerMessage (Json.obj [("type", Json.str "bgshift"), ("color", Json.str S)]) =
        some (ServerMessage.backgroundShift S) ∧
      decodeServerMessage (Json.obj [("type", Json.str "chatclear")]) =
        some ServerMessage.chatClear ∧
      decodeServerMessage (Json.obj [("type", Json.str "kicked"), ("message", Json.str S)]) =
        some (ServerMessage.kicked S) :=
  fun _U _S => ⟨rfl, rfl, rfl, rfl, rfl, rfl, rfl, rfl, rfl⟩

end Termchat

namespace Termchat

/-- Counterexample to C2: a malformed frame with a recognized
discriminant — `join` without its required `username` field — is
silently dropped by the reader dispatch (no event at all, in particular
no diagnostic event carrying the raw frame text), even though the loop
continues. -/
theorem malformed_join_frame_yields_no_event :
    readerStep (WsFrame.text (some (Json.obj [("type", Json.str "join")])) "rawframe") =
      ([], true) ∧
    (UiEvent.received "rawframe") ∉
      (readerStep (WsFrame.text (some (Json.obj [("type", Json.str "join")])) "rawframe")).1 := by
  constructor
  · rfl
  · intro h
    cases h

/-- C2 amended: on every inbound text frame the read loop continues
(the connection stays alive), and a frame that is not JSON, has no
string `type` field, or carries an unrecognized discriminant is
forwarded as a diagnostic `Received` event carrying the raw frame text;
a frame with a recognized discriminant but missing required fields may
instead be dropped with no event. -/
theorem unrecognized_frames_surfaced :
    ∀ (p : Option Json) (t : String),
      (readerStep (WsFrame.text p t)).2 = true ∧
      (unrecognizedFrame p = true →
        readerStep (WsFrame.text p t) = ([UiEvent.received t], true)) := by
  intro p t
  refine ⟨rfl, ?_⟩
  intro h
  show (frameEvents p t, true) = ([UiEvent.received t], true)
  cases p with
  | none => rfl
  | some j =>
    simp only [frameEvents]
    cases hj : j.getStr "type" with
    | none => rfl
    | some ty =>
      simp only [unrecognizedFrame] at h
      rw [hj] at h
      simp only [Bool.not_eq_true', Bool.or_eq_false_iff, beq_eq_false_iff_ne, ne_eq] at h
      obtain ⟨⟨⟨⟨⟨⟨⟨⟨h1, h2⟩, h3⟩, h4⟩, h5⟩, h6⟩, h7⟩, h8⟩, h9⟩ := h
      simp [hj, h1, h2, h3, h4, h5, h6, h7, h8, h9]

/-- Witness for the amended C2: a frame with the unknown discriminant
`bogus` is surfaced as `Received` with the raw text, and the loop
continues. -/
theorem unrecognized_frames_surfaced_witness :
    unrecognizedFrame (some (Json.obj [("type", Json.str "bogus")])) = true ∧
    readerStep (WsFrame.text (some (Json.obj [("type", Json.str "bogus")])) "rawtext") =
      ([UiEvent.received "rawtext"], true) :=
  ⟨by decide,
   (unrecognized_frames_surfaced (some (Json.obj [("type", Json.str "bogus")])) "rawtext").2
     (by decide)⟩

/-- Counterexample to C3: on the spec's `kicked` scenario frame the
consumer observes only `Kick("spamming")`; no `Disconnected` event
follows it, and the read loop continues (`true`), so the manager does
not tear down the transport — in both the `main.rs` reader and the
`websocket.rs` prototype. -/
theorem kicked_frame_no_disconnect_cex :
    readerStep (WsFrame.text
        (some (Json.obj [("type", Json.str "kicked"), ("message", Json.str "spamming")]))
        "kframe") =
      ([UiEvent.kick "spamming"], true) ∧
    UiEvent.disconnected ∉
      (readerStep (WsFrame.text
        (some (Json.obj [("type", Json.str "kicked"), ("message", Json.str "spamming")]))
        "kframe")).1 ∧
    wsReaderStep "alice" (WsTypedFrame.text (some (ServerMessage.kicked "spamming"))) =
      ([AppEvent.kicked "spamming"], true) ∧
    AppEvent.disconnected ∉
      (wsReaderStep "alice"
        (WsTypedFrame.text (some (ServerMessage.kicked "spamming")))).1 := by
  refine ⟨rfl, ?_, rfl, ?_⟩ <;> decide

/-- C3 amended: a `kicked` frame is forwarded to the consumer as the
single kick event carrying its message, the read loop continues, and no
`Disconnected` signal or teardown follows from the handler — in the
`main.rs` reader and in the `websocket.rs` prototype alike. -/
theorem kicked_forwarded_only :
    ∀ (M txt selfU : String),
      readerStep (WsFrame.text
          (some (Json.obj [("type", Json.str "kicked"), ("message", Json.str M)])) txt) =
        ([UiEvent.kick M], true) ∧
      wsReaderStep selfU (WsTypedFrame.text (some (ServerMessage.kicked M))) =
        ([AppEvent.kicked M], true) :=
  fun _M _txt _selfU => ⟨rfl, rfl⟩

/-- Counterexample to C4: on an `auth_failed` frame the `main.rs` reader
forwards only the `AuthFailed` event — no `Disconnected` signal follows
and the loop continues — while the `websocket.rs` prototype sends only
`Disconnected` without ever forwarding the failure message (it goes to
stderr), and its loop also continues. -/
theorem auth_failed_no_disconnect_cex :
    readerStep (WsFrame.text
        (some (Json.obj [("type", Json.str "auth_failed"),
                         ("message", Json.str "bad credentials")])) "aframe") =
      ([UiEvent.authFailed "bad credentials"], true) ∧
    UiEvent.disconnected ∉
      (readerStep (WsFrame.text
        (some (Json.obj [("type", Json.str "auth_failed"),
                         ("message", Json.str "bad credentials")])) "aframe")).1 ∧
    wsReaderStep "alice"
        (WsTypedFrame.text (some (ServerMessage.authFailed "bad credentials"))) =
      ([AppEvent.disconnected], true) := by
  refine ⟨rfl, ?_, rfl⟩
  decide

/-- C4 amended: in the `main.rs` reader a decoded `error` or
`auth_failed` frame is forwarded to the consumer as its diagnostic event
and nothing more — no `Disconnected` signal is delivered after it and
the read loop keeps the connection open; in the `websocket.rs`
prototype only `Disconnected` is sent (the payload message goes to
stderr) and that loop also continues. -/
theorem auth_error_forwarded_without_disconnect :
    ∀ (M txt selfU : String),
      readerStep (WsFrame.text
          (some (Json.obj [("type", Json.str "error"), ("message", Json.str M)])) txt) =
        ([UiEvent.uiError M], true) ∧
      readerStep (WsFrame.text
          (some (Json.obj [("type", Json.str "auth_failed"), ("message", Json.str M)])) txt) =
        ([UiEvent.authFailed M], true) ∧
      wsReaderStep selfU (WsTypedFrame.text (some (ServerMessage.error M))) =
        ([AppEvent.disconnected], true) ∧
      wsReaderStep selfU (WsTypedFrame.text (some (ServerMessage.authFailed M))) =
        ([AppEvent.disconnected], true) :=
  fun _M _txt _selfU => ⟨rfl, rfl, rfl, rfl⟩

end Termchat

namespace Termchat

/-- Counterexample to C5: a `Connect` whose username is `" Server "` is
not rejected — `on_connect` forwards the username unchanged (it is not
blank, so no defaulting applies), and the network thread, not being
already connected, makes a transport connection attempt with exactly
that username. -/
theorem server_username_connect_attempted_cex :
    on_connect " Server " "general" "pw" = NetCommand.connect " Server " "general" "pw" ∧
    netStep { connectionActive := false, hasOutgoing := false }
        (on_connect " Server " "general" "pw") ConnectOutcome.ok =
      ({ connectionActive := true, hasOutgoing := true }, [],
       some (" Server ", "general", "pw")) := by
  refine ⟨by decide, by decide⟩

/-- C5 amended: no reserved-name check exists anywhere on the `Connect`
path.  Whatever the username — including any spelling of the reserved
name — `on_connect` forwards it (blank fields defaulted) and the
network thread attempts the websocket transport whenever it is not
already connected. -/
theorem connect_no_reserved_name_check :
    ∀ (u c p : String) (s : NetState) (o : ConnectOutcome),
      s.connectionActive = false →
      ((netStep s (on_connect u c p) o).2.2).isSome = true := by
  intro u c p s o h
  cases o <;> simp [netStep, on_connect, h]

/-- Witness for the amended C5 at username `" Server "` from the idle
state. -/
theorem connect_no_reserved_name_check_witness :
    (({ connectionActive := false, hasOutgoing := false } : NetState).connectionActive
      = false) ∧
    ((netStep { connectionActive := false, hasOutgoing := false }
        (on_connect " Server " "general" "pw") ConnectOutcome.ok).2.2).isSome = true :=
  ⟨rfl,
   connect_no_reserved_name_check " Server " "general" "pw"
     { connectionActive := false, hasOutgoing := false } ConnectOutcome.ok rfl⟩

/-- Counterexample to C6: a `Connect` received while a connection is
active is answered with the `Error("Already connected")` event sent to
the consumer over the bridge — so the claim's conjunct that no event is
emitted on either side of the bridge is false — while the state is
unchanged and no transport attempt is made. -/
theorem already_connected_rejection_event_cex :
    netStep { connectionActive := true, hasOutgoing := true }
        (NetCommand.connect "bob" "general" "pw") ConnectOutcome.ok =
      ({ connectionActive := true, hasOutgoing := true },
       [UiEvent.uiError "Already connected"], none) ∧
    ([UiEvent.uiError "Already connected"] : List UiEvent) ≠ [] := by
  refine ⟨by decide, by decide⟩

/-- C6 amended: a `Connect` issued while the connection is active is
rejected by sending exactly one `Error("Already connected")` event to
the consumer over the bridge; the network state is unchanged, no
transport attempt is made and nothing is sent on the outbound side. -/
theorem connect_while_active_rejected :
    ∀ (s : NetState) (u c p : String) (o : ConnectOutcome),
      s.connectionActive = true →
      netStep s (NetCommand.connect u c p) o =
        (s, [UiEvent.uiError "Already connected"], none) := by
  intro s u c p o h
  simp [netStep, h]

/-- Witness for the amended C6 while live. -/
theorem connect_while_active_rejected_witness :
    (({ connectionActive := true, hasOutgoing := true } : NetState).connectionActive
      = true) ∧
    netStep { connectionActive := true, hasOutgoing := true }
        (NetCommand.connect "carol" "general" "pw") (ConnectOutcome.failed "refused") =
      ({ connectionActive := true, hasOutgoing := true },
       [UiEvent.uiError "Already connected"], none) :=
  ⟨rfl,
   connect_while_active_rejected { connectionActive := true, hasOutgoing := true }
     "carol" "general" "pw" (ConnectOutcome.failed "refused") rfl⟩

end Termchat
